import Mathlib

/-!
Verification of the coordinate-transform pipeline of the imgui-support
repository (crates `common`, `xplane`, `standalone`).

Modelling conventions:
* `f32` scalar values are modelled as exact rationals (`ℚ`).  All the
  arithmetic the claims exercise (sums, products, the constants 0.5 and the
  matrix entries used in the concrete scenarios) is carried out on values
  where the spec reasons with exact real arithmetic; IEEE-754 rounding and
  the non-finite values are outside this model.
* `i32` values are modelled as `ℤ`.  Where the source's wrapping overflow
  behaviour matters (release-profile Rust two's-complement wrapping in
  `Rect::width`/`Rect::height`), the reduction into the `i32` range is made
  explicit via `wrap32`.
* The Rust cast `as i32` from a float is truncation toward zero,
  saturating at the ends of the `i32` range (`f32toI32`).
* Flat 16-element `f32` arrays (matrices) and 4-element arrays (vectors,
  viewports) are modelled as functions out of `ℕ`, read at the indices the
  source reads.
-/

namespace ImguiSupport

/-- The semantics of Rust's `as i32` cast from a float: truncation toward
zero, saturating at the ends of the `i32` range.  On a negative in-range
argument `-⌊-q⌋` is the ceiling, so the value is rounded toward zero;
clamping the argument at the two bounds before truncating gives the same
result as truncating and then clamping, because truncation moves a value
toward zero and never across either bound. -/
def f32toI32 (q : ℚ) : ℤ :=
  if q ≤ -2147483648 then -2147483648
  else if 2147483647 ≤ q then 2147483647
  else if 0 ≤ q then ⌊q⌋ else -⌊-q⌋

/-- Reduce an integer into the `i32` range `[-2^31, 2^31 - 1]` by
two's-complement wrapping (release-profile Rust overflow semantics). -/
def wrap32 (n : ℤ) : ℤ := (n + 2147483648) % 4294967296 - 2147483648

/-- `common/src/geometry.rs`: `Rect { left, top, right, bottom }`, four
`i32` bounds. -/
structure Rect where
  left : ℤ
  top : ℤ
  right : ℤ
  bottom : ℤ
deriving DecidableEq

/-- `Rect::width`: `(self.right - self.left).unsigned_abs()`.  The `i32`
subtraction wraps on overflow, then `unsigned_abs` takes the magnitude as a
`u32`. -/
def Rect.width (r : Rect) : ℕ := (wrap32 (r.right - r.left)).natAbs

/-- `Rect::height`: `(self.top - self.bottom).unsigned_abs()`. -/
def Rect.height (r : Rect) : ℕ := (wrap32 (r.top - r.bottom)).natAbs

/-- `xplane/src/renderer.rs`, `mult_matrix_vec4f`: row-major 4×4 matrix
times a homogeneous 4-vector, the vector acting as a row vector on the
left.  Transcribed term for term from the source. -/
def mult_matrix_vec4f (m v : ℕ → ℚ) : ℕ → ℚ := fun i =>
  match i with
  | 0 => v 0 * m 0 + v 1 * m 4 + v 2 * m 8 + v 3 * m 12
  | 1 => v 0 * m 1 + v 1 * m 5 + v 2 * m 9 + v 3 * m 13
  | 2 => v 0 * m 2 + v 1 * m 6 + v 2 * m 10 + v 3 * m 14
  | 3 => v 0 * m 3 + v 1 * m 7 + v 2 * m 11 + v 3 * m 15
  | _ => 0

/-- Helper building the 4-vector `[x, y, z, w]` as a function out of `ℕ`. -/
def vec4 (x y z w : ℚ) : ℕ → ℚ := fun i =>
  match i with
  | 0 => x
  | 1 => y
  | 2 => z
  | 3 => w
  | _ => 0

/-- The row-major 4×4 identity matrix as a flat 16-element array. -/
def idMat16 : ℕ → ℚ := fun i => if i = 0 ∨ i = 5 ∨ i = 10 ∨ i = 15 then 1 else 0

/-- `xplane/src/renderer.rs`, `translate_imgui_to_boxel`:
`(left + x as i32, top - y as i32)`.  The float clip coordinate is
truncated to `i32` before the translation. -/
def translate_imgui_to_boxel (left top : ℤ) (x y : ℚ) : ℤ × ℤ :=
  (left + f32toI32 x, top - f32toI32 y)

/-- `xplane/src/renderer.rs`, `boxels_to_native`: panel-local integer point
through modelview then projection, perspective divide by multiplying with
the reciprocal of `w`, then the viewport mapping, truncated to `i32`. -/
def boxels_to_native (x y : ℤ) (modelview projection : ℕ → ℚ)
    (viewport : ℕ → ℤ) : ℤ × ℤ :=
  let eye := mult_matrix_vec4f modelview (vec4 (x : ℚ) (y : ℚ) 0 1)
  let ndc := mult_matrix_vec4f projection eye
  let ndc3 := 1 / ndc 3
  let ndc0 := ndc 0 * ndc3
  let ndc1 := ndc 1 * ndc3
  let out_x := (ndc0 * (1/2) + 1/2) * ((viewport 2 : ℤ) : ℚ) + ((viewport 0 : ℤ) : ℚ)
  let out_y := (ndc1 * (1/2) + 1/2) * ((viewport 3 : ℤ) : ℚ) + ((viewport 1 : ℤ) : ℚ)
  (f32toI32 out_x, f32toI32 out_y)

/-- The composition `boxels_to_native ∘ translate_imgui_to_boxel` applied
to one clip-rect corner, exactly as `Renderer::render` composes the two. -/
def renderPathPoint (left top : ℤ) (x y : ℚ) (mv p : ℕ → ℚ)
    (vp : ℕ → ℤ) : ℤ × ℤ :=
  let b := translate_imgui_to_boxel left top x y
  boxels_to_native b.1 b.2 mv p vp

/-- The four arguments `Renderer::render` passes to `gl::Scissor` for a
clip rect `[x, y, z, w]`: `(n_left, n_bottom, n_right - n_left,
n_top - n_bottom)`, the two corners transformed independently and
recombined with no normalization.  The two span subtractions are `i32`
subtractions of the source and wrap on overflow (release-profile Rust),
so they are reduced into the `i32` range with `wrap32`; the corner values
themselves are already `i32` results of the saturating cast. -/
def renderScissor (left top : ℤ) (x y z w : ℚ) (mv p : ℕ → ℚ)
    (vp : ℕ → ℤ) : ℤ × ℤ × ℤ × ℤ :=
  let nlt := renderPathPoint left top x y mv p vp
  let nrb := renderPathPoint left top z w mv p vp
  (nlt.1, nrb.2, wrap32 (nrb.1 - nlt.1), wrap32 (nlt.2 - nrb.2))

/-- The viewport `[0, 0, 2147483647, 2]`, wide enough that transformed
corners can sit more than `2^31` pixels apart. -/
def vpWide : ℕ → ℤ := fun i => if i = 2 then 2147483647 else if i = 3 then 2 else 0

/-- A 2×2 viewport at the origin: `[0, 0, 2, 2]`. -/
def vp2 : ℕ → ℤ := fun i => if i = 2 ∨ i = 3 then 2 else 0

/-- A 200×100 viewport at the origin: `[0, 0, 200, 100]`. -/
def vp200 : ℕ → ℤ := fun i => if i = 2 then 200 else if i = 3 then 100 else 0

/-- Row-major modelview matrix that mirrors the x axis and leaves the
other axes alone. -/
def mvFlipX : ℕ → ℚ := fun i =>
  if i = 0 then -1 else if i = 5 ∨ i = 10 ∨ i = 15 then 1 else 0

/-- Row-major orthographic projection matching a 200×100 viewport at the
origin one-to-one: `x ↦ x/100 - 1`, `y ↦ y/50 - 1`, `w ↦ 1`. -/
def orthoP200 : ℕ → ℚ := fun i =>
  if i = 0 then 1/100
  else if i = 5 then 1/50
  else if i = 10 then -1
  else if i = 12 ∨ i = 13 then -1
  else if i = 15 then 1
  else 0

/-- `src/standalone/renderer.rs`, the four arguments `render` passes to
`gl::Scissor` for a clip rect `[x, y, z, w]`:
`(x·scale_w, fb_height - w·scale_h, (z - x)·scale_w, (w - y)·scale_h)`,
each truncated to `i32`. -/
def standaloneScissor (x y z w sw sh fbh : ℚ) : ℤ × ℤ × ℤ × ℤ :=
  (f32toI32 (x * sw), f32toI32 (fbh - w * sh),
   f32toI32 ((z - x) * sw), f32toI32 ((w - y) * sh))

/-- The direct-framebuffer logical→device corner mapping as the spec words
it: a pure horizontal scale and a vertical scale-plus-flip around the
framebuffer height. -/
def directFramebufferDeviceSpec (lx ly sx sy fbh : ℚ) : ℚ × ℚ :=
  (lx * sx, fbh - ly * sy)

/-- `common/src/events.rs`: the `MouseButton` enum. -/
inductive MouseButton where
  | Left
  | Right
deriving DecidableEq

/-- `common/src/events.rs`: the `Action` enum. -/
inductive Action where
  | Press
  | Release
deriving DecidableEq

/-- `common/src/events.rs`: the `Modifiers` struct. -/
structure Modifiers where
  control : Bool
  option : Bool
  shift : Bool
deriving DecidableEq

/-- `common/src/events.rs`: the `Event` enum.  The `imgui::Key` payload is
modelled as a plain numeric key code. -/
inductive Event where
  | MouseButton : ImguiSupport.MouseButton → Action → Event
  | CursorPos : ℤ → ℤ → Event
  | Scroll : ℤ → ℤ → Event
  | Key : Option ℕ → Char → Action → Modifiers → Event
deriving DecidableEq

/-- `xplane/src/ui.rs`, `handle_mouse_wheel`: the `Scroll` event built from
the wheel axis and the click count,
`let (x, y) = if wheel == 0 { (0, clicks) } else { (clicks, 0) }`. -/
def handle_mouse_wheel (wheel clicks : ℤ) : Event :=
  if wheel = 0 then Event.Scroll 0 clicks else Event.Scroll clicks 0

/-- An integer in the `i32` range is unchanged by the wrapping reduction. -/
theorem wrap32_eq_self {n : ℤ} (h1 : -2147483648 ≤ n) (h2 : n ≤ 2147483647) :
    wrap32 n = n := by
  unfold wrap32; omega

/-- Claim C1: for every row-major 4×4 matrix `m` and 4-vector `v`,
`mult_matrix_vec4f m v` returns `out` with
`out[i] = v[0]*m[0*4+i] + v[1]*m[1*4+i] + v[2]*m[2*4+i] + v[3]*m[3*4+i]`
for each `i` in `0..4`: the row-vector-on-the-left product of the
contract. -/
theorem C1_mult_matrix_vec4f_contract (m v : ℕ → ℚ) :
    mult_matrix_vec4f m v 0
        = v 0 * m (0 * 4 + 0) + v 1 * m (1 * 4 + 0) + v 2 * m (2 * 4 + 0) + v 3 * m (3 * 4 + 0) ∧
    mult_matrix_vec4f m v 1
        = v 0 * m (0 * 4 + 1) + v 1 * m (1 * 4 + 1) + v 2 * m (2 * 4 + 1) + v 3 * m (3 * 4 + 1) ∧
    mult_matrix_vec4f m v 2
        = v 0 * m (0 * 4 + 2) + v 1 * m (1 * 4 + 2) + v 2 * m (2 * 4 + 2) + v 3 * m (3 * 4 + 2) ∧
    mult_matrix_vec4f m v 3
        = v 0 * m (0 * 4 + 3) + v 1 * m (1 * 4 + 3) + v 2 * m (2 * 4 + 3) + v 3 * m (3 * 4 + 3) :=
  ⟨rfl, rfl, rfl, rfl⟩

/-- Claim C8: multiplying the 4×4 identity matrix by any 4-vector with
`mult_matrix_vec4f` returns the vector unchanged in all four
components. -/
theorem C8_identity_matrix_fixes_vectors (v : ℕ → ℚ) :
    mult_matrix_vec4f idMat16 v 0 = v 0 ∧ mult_matrix_vec4f idMat16 v 1 = v 1 ∧
    mult_matrix_vec4f idMat16 v 2 = v 2 ∧ mult_matrix_vec4f idMat16 v 3 = v 3 := by
  refine ⟨?_, ?_, ?_, ?_⟩ <;> norm_num [mult_matrix_vec4f, idMat16]

/-- Claim C6, counterexample: for the rectangle with `left = -2^31` and
`right = 2^31 - 1` the `i32` subtraction in `Rect::width` wraps, so the
result (1) is not the absolute difference `2^32 - 1` of the bounds.  The
claim as stated ranges over arbitrary integer bounds and is refuted
here. -/
theorem C6_counterexample :
    ¬ (((Rect.mk (-2147483648) 0 2147483647 0).width : ℤ)
        = |(Rect.mk (-2147483648) 0 2147483647 0).right
            - (Rect.mk (-2147483648) 0 2147483647 0).left|) := by
  rw [Int.abs_eq_natAbs]
  norm_num [Rect.width, wrap32]

/-- Claim C6, amended: for every `Rect` whose bound differences
`right - left` and `top - bottom` fit in `i32`, `width` is the absolute
difference `|right - left|` and `height` is `|top - bottom|`, whichever
order the two bounds are in. -/
theorem C6_width_height_abs (r : Rect)
    (hw1 : -2147483648 ≤ r.right - r.left) (hw2 : r.right - r.left ≤ 2147483647)
    (hh1 : -2147483648 ≤ r.top - r.bottom) (hh2 : r.top - r.bottom ≤ 2147483647) :
    (r.width : ℤ) = |r.right - r.left| ∧ (r.height : ℤ) = |r.top - r.bottom| := by
  constructor
  · rw [Rect.width, wrap32_eq_self hw1 hw2, Int.abs_eq_natAbs]
  · rw [Rect.height, wrap32_eq_self hh1 hh2, Int.abs_eq_natAbs]

/-- Witness for the amended claim C6 at the rectangle `(0, 10, 5, 0)`,
which has `left < right` and `top > bottom`. -/
theorem C6_width_height_abs_witness :
    (((Rect.mk 0 10 5 0).width : ℤ)
        = |(Rect.mk 0 10 5 0).right - (Rect.mk 0 10 5 0).left|) ∧
    (((Rect.mk 0 10 5 0).height : ℤ)
        = |(Rect.mk 0 10 5 0).top - (Rect.mk 0 10 5 0).bottom|) :=
  C6_width_height_abs ⟨0, 10, 5, 0⟩ (by decide) (by decide) (by decide) (by decide)

/-- Claim C9: `Rect::width`/`Rect::height` take the `i32` difference
before the unsigned magnitude, so the result is always the magnitude of
the wrapped difference; it equals the true absolute difference exactly
under the fits-in-`i32` precondition, and at `left = -2^31`,
`right = 2^31 - 1` the wrapped difference yields 1 rather than the true
width `2^32 - 1`. -/
theorem C9_width_overflow :
    (∀ r : Rect, (r.width : ℤ) = |wrap32 (r.right - r.left)|
        ∧ (r.height : ℤ) = |wrap32 (r.top - r.bottom)|) ∧
    (∀ r : Rect, -2147483648 ≤ r.right - r.left → r.right - r.left ≤ 2147483647 →
        (r.width : ℤ) = |r.right - r.left|) ∧
    (Rect.mk (-2147483648) 0 2147483647 0).width = 1 ∧
    ((Rect.mk (-2147483648) 0 2147483647 0).width : ℤ) ≠ 4294967295 := by
  refine ⟨fun r => ⟨?_, ?_⟩, fun r h1 h2 => ?_, by decide, by decide⟩
  · rw [Rect.width, Int.abs_eq_natAbs]
  · rw [Rect.height, Int.abs_eq_natAbs]
  · rw [Rect.width, wrap32_eq_self h1 h2, Int.abs_eq_natAbs]

/-- Witness for claim C9 at a rectangle whose bound difference fits in
`i32`. -/
theorem C9_width_overflow_witness :
    ((Rect.mk 0 0 7 0).width : ℤ) = |(Rect.mk 0 0 7 0).right - (Rect.mk 0 0 7 0).left| :=
  C9_width_overflow.2.1 ⟨0, 0, 7, 0⟩ (by decide) (by decide)

/-- Claim C4, counterexample: `Renderer::render` recombines the two
independently transformed corners with no normalization, so with a
modelview matrix that mirrors the x axis the transformed corners arrive
swapped and the scissor rectangle has `left > right` (a negative width
span): the claim that `left ≤ right` and `bottom ≤ top` always hold is
refuted. -/
theorem C4_counterexample :
    ¬ (0 ≤ (renderScissor 0 0 0 0 100 50 mvFlipX idMat16 vp2).2.2.1
        ∧ 0 ≤ (renderScissor 0 0 0 0 100 50 mvFlipX idMat16 vp2).2.2.2) := by
  norm_num [renderScissor, renderPathPoint, boxels_to_native, translate_imgui_to_boxel,
    mult_matrix_vec4f, vec4, idMat16, mvFlipX, vp2, f32toI32, wrap32]

/-- Even unswapped transformed corners do not guarantee non-negative
spans: on the `[0, 0, 2147483647, 2]` viewport with an identity camera
the clip rect `[-4, 0, 0, 0]` puts the transformed corners more than
`2^31` apart (the left one saturating at `-2^31`), and the wrapping `i32`
span subtraction hands `gl::Scissor` a negative width. -/
theorem renderScissor_wrap_negative_span :
    (renderPathPoint 0 0 (-4) 0 idMat16 idMat16 vpWide).1
        ≤ (renderPathPoint 0 0 0 0 idMat16 idMat16 vpWide).1 ∧
    (renderScissor 0 0 (-4) 0 0 0 idMat16 idMat16 vpWide).2.2.1 < 0 := by
  norm_num [renderScissor, renderPathPoint, boxels_to_native, translate_imgui_to_boxel,
    mult_matrix_vec4f, vec4, idMat16, vpWide, f32toI32, wrap32]

/-- Claim C4, amended: the scissor rectangle satisfies `left ≤ right` and
`bottom ≤ top` (non-negative width and height spans) when the two
independently transformed corners arrive in unswapped order and each
corner difference fits in `i32`; the code performs no normalization and
subtracts the corners with wrapping `i32` arithmetic, so swapped corners
— or unswapped corners more than `2^31 - 1` apart — yield negative
spans. -/
theorem C4_scissor_ordered_corners (left top : ℤ) (x y z w : ℚ) (mv p : ℕ → ℚ) (vp : ℕ → ℤ)
    (hx : (renderPathPoint left top x y mv p vp).1 ≤ (renderPathPoint left top z w mv p vp).1)
    (hy : (renderPathPoint left top z w mv p vp).2 ≤ (renderPathPoint left top x y mv p vp).2)
    (hx2 : (renderPathPoint left top z w mv p vp).1 - (renderPathPoint left top x y mv p vp).1
        ≤ 2147483647)
    (hy2 : (renderPathPoint left top x y mv p vp).2 - (renderPathPoint left top z w mv p vp).2
        ≤ 2147483647) :
    0 ≤ (renderScissor left top x y z w mv p vp).2.2.1
      ∧ 0 ≤ (renderScissor left top x y z w mv p vp).2.2.2 := by
  refine ⟨?_, ?_⟩ <;> · simp only [renderScissor, wrap32]; omega

/-- Witness for the amended claim C4: an identity camera keeps the
transformed corners in order and close together, and the spans
non-negative. -/
theorem C4_scissor_ordered_corners_witness :
    0 ≤ (renderScissor 0 0 0 0 100 50 idMat16 idMat16 vp2).2.2.1
      ∧ 0 ≤ (renderScissor 0 0 0 0 100 50 idMat16 idMat16 vp2).2.2.2 :=
  C4_scissor_ordered_corners 0 0 0 0 100 50 idMat16 idMat16 vp2
    (by norm_num [renderPathPoint, boxels_to_native, translate_imgui_to_boxel,
      mult_matrix_vec4f, vec4, idMat16, vp2, f32toI32])
    (by norm_num [renderPathPoint, boxels_to_native, translate_imgui_to_boxel,
      mult_matrix_vec4f, vec4, idMat16, vp2, f32toI32])
    (by norm_num [renderPathPoint, boxels_to_native, translate_imgui_to_boxel,
      mult_matrix_vec4f, vec4, idMat16, vp2, f32toI32])
    (by norm_num [renderPathPoint, boxels_to_native, translate_imgui_to_boxel,
      mult_matrix_vec4f, vec4, idMat16, vp2, f32toI32])

/-- Claim C5: the standalone render conversion maps the horizontal
coordinate by pure scaling and the vertical coordinate by scale plus flip
around the framebuffer height — the scissor position arguments are
exactly the truncation of the spec's direct-framebuffer device mapping of
the clip rect's bottom-left logical corner — and logical `(10, 10)` with
scale `1.0` and framebuffer height `600` yields device `(10, 590)`. -/
theorem C5_standalone_scissor_conversion :
    (∀ x y z w sw sh fbh : ℚ,
        (standaloneScissor x y z w sw sh fbh).1
            = f32toI32 (directFramebufferDeviceSpec x w sw sh fbh).1 ∧
        (standaloneScissor x y z w sw sh fbh).2.1
            = f32toI32 (directFramebufferDeviceSpec x w sw sh fbh).2) ∧
    directFramebufferDeviceSpec 10 10 1 1 600 = (10, 590) :=
  ⟨fun x y z w sw sh fbh => ⟨rfl, rfl⟩, by norm_num [directFramebufferDeviceSpec]⟩

/-- Claim C7: composing the two scene-panel render sub-steps on the clip
rect `[0, 0, 100, 50]` for the panel at `(left=20, top=220, right=220,
bottom=120)` with identity modelview, an orthographic projection matching
the 200×100 viewport at the origin one-to-one, produces exactly the
scissor rectangle `(left=20, bottom=170, width=100, height=50)`. -/
theorem C7_end_to_end_scenario :
    renderScissor 20 220 0 0 100 50 idMat16 orthoP200 vp200 = (20, 170, 100, 50) := by
  norm_num [renderScissor, renderPathPoint, boxels_to_native, translate_imgui_to_boxel,
    mult_matrix_vec4f, vec4, idMat16, orthoP200, vp200, f32toI32, wrap32]

/-- Claim C10: the mouse-wheel callback delivers `Scroll(0, clicks)` for
the vertical wheel (`wheel = 0`) and `Scroll(clicks, 0)` for any other
wheel axis, and the two components of a delivered `Scroll` event are
never both non-zero. -/
theorem C10_mouse_wheel_dispatch (wheel clicks : ℤ) :
    (wheel = 0 → handle_mouse_wheel wheel clicks = Event.Scroll 0 clicks) ∧
    (wheel ≠ 0 → handle_mouse_wheel wheel clicks = Event.Scroll clicks 0) ∧
    (∀ dx dy : ℤ, handle_mouse_wheel wheel clicks = Event.Scroll dx dy →
        dx = 0 ∨ dy = 0) := by
  refine ⟨fun h => by simp [handle_mouse_wheel, h], fun h => by simp [handle_mouse_wheel, h],
    fun dx dy h => ?_⟩
  by_cases hw : wheel = 0
  · simp only [handle_mouse_wheel, if_pos hw, Event.Scroll.injEq] at h
    exact Or.inl h.1.symm
  · simp only [handle_mouse_wheel, if_neg hw, Event.Scroll.injEq] at h
    exact Or.inr h.2.symm

/-- Witness for claim C10 at a vertical-wheel invocation. -/
theorem C10_mouse_wheel_dispatch_witness :
    handle_mouse_wheel 0 3 = Event.Scroll 0 3 :=
  (C10_mouse_wheel_dispatch 0 3).1 rfl

end ImguiSupport
